import Mathlib

/-!
Shallow embedding of the prompt-execution state machine of
`src/openAIwrapper.class.ts` (class `OpenAIWrapperClass`), covering the
non-streaming Completion Runner (`runPrompt`), the Stream Runner
(`runPromptStream` / `abortStream`), request construction, and the
serialization pair (`toJSON` / `fromJSON`).

JavaScript semantic facts the embedding relies on (all standard ECMAScript
behaviour, noted where used):
* `Array.prototype.forEach` invokes its callback and discards the callback's
  return value; when the callback is an `async` function the returned promise
  is ignored, so `forEach` never waits for the asynchronous remainder of the
  callback, and an exception thrown inside the callback only rejects that
  ignored promise (an unhandled rejection) — it does not propagate to the
  function that called `forEach`.
* An `async` function body runs synchronously up to its first `await`; every
  `await` (even of a non-promise) suspends and schedules the continuation as
  a microtask, which runs only after the currently executing code (including
  the enclosing function's `return`) has finished.
* In an object literal `{...spread, k: v}` the properties written after the
  spread overwrite same-named properties coming from the spread.
* `JSON.stringify` omits object properties whose value is `undefined` or a
  function, at every nesting depth.
-/

namespace OpenAIWrapper

/--
A JavaScript value, as needed for parsed JSON payloads and for the
serialized form of the class state.  Arrays and objects are encoded with
explicit cons cells (`arrCons` / `objCons`) rather than `List` fields so
that equality is decidable by derivation; `JsVal.arrOf` and `JsVal.objOf`
build them from Lean lists.  `undefined` is the JavaScript `undefined` value
(the result of reading an absent property).  Numbers carry `Int`: no
arithmetic is ever performed on payload numbers by the code under study, so
the numeric carrier is irrelevant to every claim.
-/
inductive JsVal where
  | undefined
  | null
  | bool (b : Bool)
  | num (n : Int)
  | str (s : String)
  | arrNil
  | arrCons (hd : JsVal) (tl : JsVal)
  | objNil
  | objCons (key : String) (val : JsVal) (rest : JsVal)
deriving DecidableEq, Repr

/-- Build a JS array value from a Lean list. -/
def JsVal.arrOf (xs : List JsVal) : JsVal := xs.foldr JsVal.arrCons JsVal.arrNil

/-- Build a JS object value from a Lean association list. -/
def JsVal.objOf (fields : List (String × JsVal)) : JsVal :=
  fields.foldr (fun kv rest => JsVal.objCons kv.1 kv.2 rest) JsVal.objNil

/--
JavaScript property read `v[k]`: the field value on an object, `undefined`
when the field is absent or the receiver is not an object.  (Reading a
property of `null`/`undefined` throws in JavaScript; the code under study
only reads properties of values produced by `JSON.parse` of a tool-call
argument payload, which the remote API delivers as a JSON object.)
-/
def JsVal.getField : JsVal → String → JsVal
  | .objCons key val rest, k => if key = k then val else JsVal.getField rest k
  | _, _ => .undefined

/--
A tool call as found on an assistant message
(`OpenAI.Chat.ChatCompletionMessageToolCall`).  The source stores the raw
argument payload as a JSON string and runs `JSON.parse` on it at execution
time (line 457); the embedding carries the parsed form directly in
`arguments` — parsing itself is the JSON library's work, external to the
class, and every claim speaks about the parsed payload.
-/
structure ToolCall where
  id : String
  name : String
  arguments : JsVal
deriving DecidableEq, Repr

/--
A transcript message (`ChatCompletionMessageParam`).  Assistant messages
carry `tool_calls` as an `Option` because the source distinguishes an
absent (`undefined`) `tool_calls` property from a present one (line 446
checks `toolCalls !== undefined` before touching counters and the
`_needsToolRun` flag).  Tool messages carry the handler's return value as
their `content` (line 474 stores the handler result unchanged).
-/
inductive Msg where
  | system (content : String)
  | user (content : String)
  | assistant (content : String) (tool_calls : Option (List ToolCall))
  | tool (tool_call_id : String) (name : String) (content : JsVal)
deriving DecidableEq, Repr

/-- `message.tool_calls` of a message: `undefined` on non-assistant roles. -/
def Msg.toolCalls : Msg → Option (List ToolCall)
  | .assistant _ tcs => tcs
  | _ => none

/-- A tool declaration: `ChatCompletionTool` with `type: "function"`. -/
structure ChatTool where
  name : String
  description : String
  parameters : JsVal
deriving DecidableEq, Repr

/-- `OpenAIWrapperClassCount` (source lines 18-23). -/
structure OpenAIWrapperClassCount where
  prompt_tokens : Nat
  completion_tokens : Nat
  total_tokens : Nat
  tool_calls : Nat
deriving DecidableEq, Repr

/-- `CompletionUsage` as read by `_updateThreadCount` (source lines 808-815). -/
structure Usage where
  prompt_tokens : Nat
  completion_tokens : Nat
  total_tokens : Nat
deriving DecidableEq, Repr

/-- One choice of a chat completion; only `message` is read by the code. -/
structure Choice where
  message : Msg
deriving DecidableEq, Repr

/--
A chat completion result (`OpenAI.Chat.Completions.ChatCompletion`),
restricted to the fields the class reads or constructs: `id`, `choices`,
`model`, `usage`.  The `created: Date.now()` timestamp of the synthesized
streaming completion (line 374) is wall-clock time, observationally inert
for every claim, and is omitted.
-/
structure ChatCompletion where
  id : String
  choices : List Choice
  model : String
  usage : Option Usage
deriving DecidableEq, Repr

/--
A caller-supplied tool handler.  The source types these as `Function` and
invokes each with exactly two positional arguments (line 464); the model
therefore gives a handler two `JsVal` parameters and a `JsVal` result.
Handlers are modelled as pure and total (the spec's contract allows them to
be asynchronous or to throw, but no claim exercises a throwing handler).
-/
def Handler := JsVal → JsVal → JsVal

/--
The mutable state of an `OpenAIWrapperClass` instance, one field per own
property of the class in declaration order (source lines 41-72).  The
`openai` client object is an external collaborator and carries no state the
class reads back, so it is not a field here (its serialized image is a
parameter of `ownProps`).  `streamAbortController` is an
`AbortController | undefined` slot whose only observable uses are
"is it set" tests and `.abort()`, so it is carried as the `Bool`
"handle present".  `lastResponse` is a union of six result shapes; the
claims only exercise the chat-completion and `undefined` variants, so it is
`Option ChatCompletion` (the other variants belong to the passthrough
endpoints outside every claim).  `hasSink` is "`streamCallbackFn` is set".
-/
structure WrapperState where
  model : String := "gpt-3.5-turbo"
  json_mode : Bool := false
  messages : List Msg := []
  tools : List ChatTool := []
  temperature : Int := 1
  timeout : Int := 600000
  streamAbortController : Bool := false
  max_tokens : Option Int := none
  threadCount : OpenAIWrapperClassCount :=
    { prompt_tokens := 0, completion_tokens := 0, total_tokens := 0, tool_calls := 0 }
  receivedCompletions : List ChatCompletion := []
  toolFunctionmap : List (String × Handler) := []
  debug : Bool := false
  lastResponse : Option ChatCompletion := none
  _needsToolRun : Bool := false
  hasSink : Bool := false

/-- `_addmessages` (source lines 300-304): concatenate onto the transcript. -/
def appendMessages (s : WrapperState) (ms : List Msg) : WrapperState :=
  { s with messages := s.messages ++ ms }

/-- `_updateThreadCount` (source lines 808-815): accumulate usage counters. -/
def updateThreadCount (s : WrapperState) (response : ChatCompletion) : WrapperState :=
  match response.usage with
  | none => s
  | some u =>
      { s with threadCount :=
          { s.threadCount with
            prompt_tokens := s.threadCount.prompt_tokens + u.prompt_tokens
            completion_tokens := s.threadCount.completion_tokens + u.completion_tokens
            total_tokens := s.threadCount.total_tokens + u.total_tokens } }

/-!
## Request construction

`runPrompt` (lines 424-433) and `runPromptStream` (lines 326-334) build the
request with an object literal whose first entry spreads the caller's
per-call `modelOptions` and whose remaining entries are written explicitly.
By the spread rule, every explicitly written key takes the explicit value
regardless of what the spread supplied; only keys absent from the explicit
list pass through from `modelOptions`.
-/

/--
`CompletionCreateParamsBaseOptionals` (source lines 28-29): the per-call
override record, all fields optional (`none` = key absent).  `temperature`,
`max_tokens` and `stream` are the override fields named by the spec that
also occur in the explicit key list of the call sites; `top_p` and `seed`
are representative fields that occur only through the spread (the remaining
optional fields of `CompletionCreateParamsBase` — `frequency_penalty`,
`logit_bias`, `stop`, ... — behave exactly like `top_p`/`seed` and are
omitted without loss for the claims).
-/
structure ModelOptions where
  temperature : Option Int := none
  max_tokens : Option Int := none
  stream : Option Bool := none
  top_p : Option Int := none
  seed : Option Int := none
deriving DecidableEq, Repr

/-- The request payload handed to `openai.chat.completions.create`. -/
structure ChatRequest where
  messages : List Msg
  model : String
  stream : Bool
  temperature : Int
  response_format : String
  tools : Option (List ChatTool)
  max_tokens : Option Int
  top_p : Option Int
  seed : Option Int
deriving DecidableEq, Repr

/--
The request built by `runPrompt` (source lines 424-433):
`{...modelOptions, messages, model, stream: false, temperature,
response_format, tools, max_tokens}`.  The seven explicit keys overwrite
any same-named key of `modelOptions`; `top_p`/`seed` reach the request only
through the spread.
-/
def runPromptRequest (s : WrapperState) (mo : ModelOptions) : ChatRequest :=
  { messages := s.messages
    model := s.model
    stream := false
    temperature := s.temperature
    response_format := if s.json_mode then "json_object" else "text"
    tools := if s.tools.length > 0 then some s.tools else none
    max_tokens := s.max_tokens
    top_p := mo.top_p
    seed := mo.seed }

/--
The request built by `runPromptStream` (source lines 326-334):
`{...modelOptions, messages, model, stream: true, temperature,
response_format, tools: undefined}`.  Unlike `runPrompt`, this call site
writes no explicit `max_tokens`, so an override `max_tokens` passes through
the spread, and the stored `max_tokens` is not sent at all; `tools` is
explicitly `undefined` after the spread.
-/
def runPromptStreamRequest (s : WrapperState) (mo : ModelOptions) : ChatRequest :=
  { messages := s.messages
    model := s.model
    stream := true
    temperature := s.temperature
    response_format := if s.json_mode then "json_object" else "text"
    tools := none
    max_tokens := mo.max_tokens
    top_p := mo.top_p
    seed := mo.seed }

/-!
## Completion Runner: `runPrompt` (source lines 421-490)

The tool-execution phase sits inside `response.choices.forEach(async
(choice) => {...})`.  `forEach` discards the promises its async callback
returns, so only the synchronous prefix of each callback (everything up to
the first `await`) runs before `runPrompt` executes `return this`, which
resolves the promise handed to the caller.  The synchronous prefix of the
callback for one choice is: append `choice.message` (line 441), and — when
`tool_calls` is defined — add its length to the tool-call counter (line
449), set `_needsToolRun` (line 451), and run the first loop iteration up
to `await functionToCall(...)` (line 464), which parses arguments, looks up
the handler (a missing handler throws there, rejecting only the discarded
callback promise) and starts the handler call.  The first `await` suspends,
so every `this._addmessages([...tool result...])` (line 468) runs strictly
after the promise has resolved; the remaining iterations run in later
microtasks, still sequentially within one choice because the `for...of`
loop awaits each handler before moving on.

The model therefore yields both the state at the moment the promise
resolves (`resolveState`) and the state after the event loop has drained
and every discarded callback promise has settled (`settledState`), together
with the handler-invocation trace and the error, if any, that rejected a
discarded callback promise.
-/

/-- One handler invocation: tool name and the two positional arguments the
source passes (line 464). -/
structure HandlerInvocation where
  name : String
  arg1 : JsVal
  arg2 : JsVal
deriving DecidableEq, Repr

/--
The `for (const toolCall of toolCalls)` loop (source lines 454-478), run to
completion: for each call, look up the handler by name; a missing handler
throws `Function <name> is not defined` (line 460), which aborts the loop
— tool-result messages already produced stay, later calls are never
attempted.  A found handler is invoked as
`functionToCall(functionArgs.location, functionArgs.unit)` (line 464) and a
tool message `{tool_call_id, role: "tool", name, content: result}` is
produced (lines 468-476).  Returns (tool messages in order, invocation
trace in order, error of the discarded callback promise if any).
-/
def runToolCallsLoop (map : List (String × Handler)) :
    List ToolCall → List Msg × List HandlerInvocation × Option String
  | [] => ([], [], none)
  | tc :: rest =>
      match map.lookup tc.name with
      | none => ([], [], some ("Function " ++ tc.name ++ " is not defined"))
      | some f =>
          let a1 := tc.arguments.getField "location"
          let a2 := tc.arguments.getField "unit"
          let functionResponse := f a1 a2
          let (ms, invs, err) := runToolCallsLoop map rest
          (Msg.tool tc.id tc.name functionResponse :: ms,
           { name := tc.name, arg1 := a1, arg2 := a2 } :: invs,
           err)

/--
The synchronous prefixes of the per-choice `forEach` callbacks, in choice
order: append the assistant message (line 441); when `tool_calls` is
defined, bump the tool-call counter by the batch size (line 449) and set
`_needsToolRun := tool_calls.length > 0` (line 451 — an assignment, not a
disjunction, so a later choice overwrites an earlier one's flag).
-/
def runPromptSyncChoices (s : WrapperState) (choices : List Choice) : WrapperState :=
  choices.foldl
    (fun acc c =>
      let acc := appendMessages acc [c.message]
      match c.message.toolCalls with
      | none => acc
      | some tcs =>
          { acc with
            threadCount := { acc.threadCount with
              tool_calls := acc.threadCount.tool_calls + tcs.length }
            _needsToolRun := tcs.length > 0 })
    s

/--
The deferred remainders of the per-choice callbacks: each choice with a
defined `tool_calls` list runs its tool loop, appending tool messages.
With several choices the real microtask interleaving would alternate
between the callbacks; the model serializes them choice by choice, which is
exact for single-choice responses — the API default and the only shape any
claim (and the wrapper's own two-call tool protocol) exercises.  The first
error to reject a discarded callback promise is reported.
-/
def runPromptDeferredChoices (map : List (String × Handler)) (choices : List Choice) :
    List Msg × List HandlerInvocation × Option String :=
  choices.foldl
    (fun acc c =>
      match c.message.toolCalls with
      | none => acc
      | some tcs =>
          let (ms, invs, err) := runToolCallsLoop map tcs
          (acc.1 ++ ms, acc.2.1 ++ invs, acc.2.2 <|> err))
    ([], [], none)

/-- The two observable stages of one `runPrompt` call, plus the handler
trace and any unhandled rejection from a discarded callback promise. -/
structure RunPromptOutcome where
  resolveState : WrapperState
  settledState : WrapperState
  invocations : List HandlerInvocation
  unhandledRejection : Option String

/--
`runPrompt` (source lines 421-490) after the transport has delivered
`response`: clear `_needsToolRun` (line 422), push the completion (line
436), run the synchronous prefixes of the `forEach` callbacks (lines
440-480), accumulate usage counters (line 483), record the response as
`lastResponse` (line 488) and resolve — that state is `resolveState`.  The
deferred callback remainders then append the tool-result messages (or stop
at an unknown tool), producing `settledState`.
-/
def runPromptModel (s : WrapperState) (response : ChatCompletion) : RunPromptOutcome :=
  let s1 := { s with _needsToolRun := false }
  let s2 := { s1 with receivedCompletions := s1.receivedCompletions ++ [response] }
  let s3 := runPromptSyncChoices s2 response.choices
  let s4 := updateThreadCount s3 response
  let s5 := { s4 with lastResponse := some response }
  let (toolMsgs, invs, err) := runPromptDeferredChoices s5.toolFunctionmap response.choices
  { resolveState := s5
    settledState := appendMessages s5 toolMsgs
    invocations := invs
    unhandledRejection := err }

/-!
## Stream Runner: `runPromptStream` (source lines 322-403) and
`abortStream` (source lines 408-415)

The `.then` callback first emits `""` to the sink if one is registered
(line 338), stores the stream's abort handle (line 339), then iterates the
fragment sequence with `for await`, emitting each chunk string to the sink
and appending it to the running `total` (lines 342-349).  Afterwards: if
the handle slot is empty the stream was aborted — `lastResponse` is
cleared and the callback returns early, before the sentinel (lines
351-356); otherwise the accumulated completion is synthesized and
recorded, the assistant message appended, the sentinel `undefined` emitted
to the sink, and the handle slot cleared (lines 358-401).  An exception
raised while iterating propagates out of the callback (there is no
`try`/`catch`/`finally`), rejecting the promise with every statement after
the loop — including the handle-clearing line 399 — skipped.

`abortStream` is a no-op when no handle is stored; otherwise it calls
`.abort()` on the handle and empties the slot (lines 409-414).  Per the
OpenAI SDK's stream implementation, aborting the controller makes the
`for await` iteration terminate gracefully at its next step, so an abort
issued after `k` delivered fragments means the loop delivered exactly the
first `k` fragments and then exited with the handle slot already empty.
-/

/-- One call of the registered sink (`streamCallbackFn`): a string
fragment, or the `undefined` end-of-stream sentinel. -/
inductive SinkEvent where
  | delta (s : String)
  | done
deriving DecidableEq, Repr

/--
How one streaming exchange terminates: the fragment sequence ends
naturally; `abortStream` is invoked after `k` fragments have been
delivered; or iterating the fragment sequence raises an error after `k`
fragments have been delivered.
-/
inductive StreamEnd where
  | natural
  | aborted (k : Nat)
  | errored (k : Nat)
deriving DecidableEq, Repr

/-- The outcome of one `runPromptStream` call: the state when its promise
settles, the sequence of sink calls made, and whether the promise
rejected. -/
structure StreamOutcome where
  finalState : WrapperState
  sinkTrace : List SinkEvent
  rejected : Bool

/--
The completion synthesized on natural completion of a stream (source lines
362-383): id `"stream"`, a single choice whose assistant message carries
the accumulated text, zeroed usage.
-/
def synthStreamCompletion (model : String) (total : String) : ChatCompletion :=
  { id := "stream"
    choices := [{ message := Msg.assistant total none }]
    model := model
    usage := some { prompt_tokens := 0, completion_tokens := 0, total_tokens := 0 } }

/--
`runPromptStream` (source lines 322-403) on a transport whose fragment
sequence, after extraction by `chunk.choices[0]?.delta?.content || ""`
(line 343), is `frags`, terminating as `ending`.  (A chunk without content
extracts to `""`; callers of the model may place `""` in `frags`.)
-/
def runPromptStreamModel (s : WrapperState) (frags : List String) (ending : StreamEnd) :
    StreamOutcome :=
  let s0 := { s with streamAbortController := false }
  let openTrace := if s0.hasSink then [SinkEvent.delta ""] else []
  let s1 := { s0 with streamAbortController := true }
  let delivered :=
    match ending with
    | .natural => frags
    | .aborted k => frags.take k
    | .errored k => frags.take k
  let total := String.join delivered
  let deltas := if s1.hasSink then delivered.map SinkEvent.delta else []
  match ending with
  | .errored _ =>
      { finalState := s1
        sinkTrace := openTrace ++ deltas
        rejected := true }
  | .aborted _ =>
      let s2 := { s1 with streamAbortController := false }
      { finalState := { s2 with lastResponse := none }
        sinkTrace := openTrace ++ deltas
        rejected := false }
  | .natural =>
      let comp := synthStreamCompletion s1.model total
      let s2 := { s1 with lastResponse := some comp }
      let s3 := { s2 with receivedCompletions := s2.receivedCompletions ++ [comp] }
      let s4 := appendMessages s3 [Msg.assistant total none]
      let doneTrace := if s4.hasSink then [SinkEvent.done] else []
      let s5 := { s4 with streamAbortController := false }
      { finalState := s5
        sinkTrace := openTrace ++ deltas ++ doneTrace
        rejected := false }

/-!
## Serialization: `toJSON` (source lines 757-766) and `fromJSON`
(source lines 774-787)

`toJSON` copies every own enumerable property of the instance into a plain
object and runs `JSON.stringify` on it.  `JSON.stringify` omits properties
whose value is `undefined` or a function — at the top level and inside
nested objects, so the `toolFunctionmap` object (whose values are all
functions) stringifies to `{}` and `streamCallbackFn` / an unset
`max_tokens` / an unset `lastResponse` / an unset `streamAbortController`
vanish from the output.

`fromJSON` parses the string and walks the parsed object's keys in order,
assigning `this[key] = json[key]` whenever the key is also an own property
of the instance, and returning `{success: false, error: ...}` immediately
at the first key that is not — leaving every assignment already made in
place.
-/

/--
The value stored in a JavaScript object property: a JSON-representable
value, a function, or `undefined`.  The latter two are dropped by
`JSON.stringify`.
-/
inductive JsProp where
  | json (v : JsVal)
  | fn
  | undefProp
deriving DecidableEq, Repr

/-- `JSON.stringify` on one object level: keep JSON-representable values,
drop function-valued and `undefined`-valued properties. -/
def stringifyProps (props : List (String × JsProp)) : List (String × JsVal) :=
  props.filterMap fun kv =>
    match kv.2 with
    | .json v => some (kv.1, v)
    | .fn => none
    | .undefProp => none

/-- JSON image of a tool call (`id`, `type`, `function.name`,
`function.arguments`); the raw argument string re-parses to the payload
carried by the model, so the payload stands for it. -/
def encodeToolCall (tc : ToolCall) : JsVal :=
  JsVal.objOf
    [("id", JsVal.str tc.id),
     ("type", JsVal.str "function"),
     ("function", JsVal.objOf
        [("name", JsVal.str tc.name), ("arguments", tc.arguments)])]

/-- JSON image of a transcript message. -/
def encodeMsg : Msg → JsVal
  | .system c => JsVal.objOf [("content", JsVal.str c), ("role", JsVal.str "system")]
  | .user c => JsVal.objOf [("content", JsVal.str c), ("role", JsVal.str "user")]
  | .assistant c tcs =>
      JsVal.objOf
        ([("content", JsVal.str c), ("role", JsVal.str "assistant")] ++
          match tcs with
          | none => []
          | some l => [("tool_calls", JsVal.arrOf (l.map encodeToolCall))])
  | .tool id name c =>
      JsVal.objOf
        [("tool_call_id", JsVal.str id), ("role", JsVal.str "tool"),
         ("name", JsVal.str name), ("content", c)]

/-- JSON image of a tool declaration. -/
def encodeChatTool (t : ChatTool) : JsVal :=
  JsVal.objOf
    [("type", JsVal.str "function"),
     ("function", JsVal.objOf
        [("name", JsVal.str t.name),
         ("description", JsVal.str t.description),
         ("parameters", t.parameters)])]

/-- JSON image of the usage counters record. -/
def encodeCount (c : OpenAIWrapperClassCount) : JsVal :=
  JsVal.objOf
    [("prompt_tokens", JsVal.num c.prompt_tokens),
     ("completion_tokens", JsVal.num c.completion_tokens),
     ("total_tokens", JsVal.num c.total_tokens),
     ("tool_calls", JsVal.num c.tool_calls)]

/-- JSON image of a usage record. -/
def encodeUsage (u : Usage) : JsVal :=
  JsVal.objOf
    [("prompt_tokens", JsVal.num u.prompt_tokens),
     ("completion_tokens", JsVal.num u.completion_tokens),
     ("total_tokens", JsVal.num u.total_tokens)]

/-- JSON image of a chat completion. -/
def encodeCompletion (c : ChatCompletion) : JsVal :=
  JsVal.objOf
    [("id", JsVal.str c.id),
     ("choices", JsVal.arrOf (c.choices.map fun ch => encodeMsg ch.message)),
     ("model", JsVal.str c.model),
     ("usage", match c.usage with | none => JsVal.null | some u => encodeUsage u)]

/--
The own enumerable properties of an `OpenAIWrapperClass` instance, in
declaration order (source lines 41-72), as JavaScript property values.
`openaiImage` is the property value of the external `openai` client
object, opaque to the class.  `toolFunctionmap` is an object whose every
property value is a function; `streamAbortController`, when set, is an
`AbortController`, which has no own enumerable properties and stringifies
to `{}`; `streamCallbackFn` is a function when set and `undefined`
otherwise — dropped by `JSON.stringify` either way.
-/
def ownProps (s : WrapperState) (openaiImage : JsProp) : List (String × JsProp) :=
  [("openai", openaiImage),
   ("model", .json (JsVal.str s.model)),
   ("json_mode", .json (JsVal.bool s.json_mode)),
   ("messages", .json (JsVal.arrOf (s.messages.map encodeMsg))),
   ("tools", .json (JsVal.arrOf (s.tools.map encodeChatTool))),
   ("temperature", .json (JsVal.num s.temperature)),
   ("timeout", .json (JsVal.num s.timeout)),
   ("streamAbortController", if s.streamAbortController then .json JsVal.objNil else .undefProp),
   ("max_tokens", match s.max_tokens with | some n => .json (JsVal.num n) | none => .undefProp),
   ("threadCount", .json (encodeCount s.threadCount)),
   ("receivedCompletions", .json (JsVal.arrOf (s.receivedCompletions.map encodeCompletion))),
   ("toolFunctionmap", .json (JsVal.objOf
      (stringifyProps (s.toolFunctionmap.map fun kv => (kv.1, JsProp.fn))))),
   ("debug", .json (JsVal.bool s.debug)),
   ("lastResponse", match s.lastResponse with
      | some c => .json (encodeCompletion c)
      | none => .undefProp),
   ("_needsToolRun", .json (JsVal.bool s._needsToolRun)),
   ("streamCallbackFn", if s.hasSink then .fn else .undefProp)]

/-- `toJSON` (source lines 757-766): the key-value content of the produced
JSON string (`JSON.parse` of the output, which `fromJSON` starts from). -/
def toJSONModel (s : WrapperState) (openaiImage : JsProp) : List (String × JsVal) :=
  stringifyProps (ownProps s openaiImage)

/-- Does the instance own a property named `k`? (`hasOwn(this, key)`). -/
def hasKey (props : List (String × JsProp)) (k : String) : Bool :=
  props.any fun kv => kv.1 = k

/-- JavaScript property assignment `this[k] = v` on an instance that owns
`k` (the `fromJSON` loop only assigns under that guard). -/
def setProp : List (String × JsProp) → String → JsVal → List (String × JsProp)
  | [], k, v => [(k, .json v)]
  | kv :: rest, k, v =>
      if kv.1 = k then (k, .json v) :: rest else kv :: setProp rest k v

/--
The `fromJSON` loop (source lines 778-782) over the parsed object's
key-value pairs in order, acting on the instance's own properties: a key
the instance owns is assigned; the first key it does not own stops the
loop and reports `Property <key> is not defined in the class`, leaving the
assignments already made in place.  Returns the instance's properties
after the call and the error, `none` meaning `{success: true}`.
-/
def fromJSONModel (props : List (String × JsProp)) :
    List (String × JsVal) → List (String × JsProp) × Option String
  | [] => (props, none)
  | (k, v) :: rest =>
      if hasKey props k then fromJSONModel (setProp props k v) rest
      else (props, some ("Property " ++ k ++ " is not defined in the class"))

/-- Fold of the assignments for a list of key-value pairs (the state of the
`fromJSON` loop after processing that list without hitting an unknown
key). -/
def applyAssignments (props : List (String × JsProp)) (kvs : List (String × JsVal)) :
    List (String × JsProp) :=
  kvs.foldl (fun ps kv => setProp ps kv.1 kv.2) props

/-!
## Helper lemmas
-/

/-- `runPromptSyncChoices` only touches the transcript, the tool-call
counter and the `_needsToolRun` flag; configuration fields survive. -/
theorem runPromptSyncChoices_config (s : WrapperState) (cs : List Choice) :
    (runPromptSyncChoices s cs).temperature = s.temperature ∧
    (runPromptSyncChoices s cs).json_mode = s.json_mode ∧
    (runPromptSyncChoices s cs).tools = s.tools ∧
    (runPromptSyncChoices s cs).max_tokens = s.max_tokens ∧
    (runPromptSyncChoices s cs).model = s.model := by
  induction cs generalizing s with
  | nil => exact ⟨rfl, rfl, rfl, rfl, rfl⟩
  | cons c rest ih =>
      simp only [runPromptSyncChoices, List.foldl_cons] at *
      cases h : c.message.toolCalls <;> simp only [h] <;> exact ih _

/-- `updateThreadCount` only touches the usage counters. -/
theorem updateThreadCount_config (s : WrapperState) (r : ChatCompletion) :
    (updateThreadCount s r).temperature = s.temperature ∧
    (updateThreadCount s r).json_mode = s.json_mode ∧
    (updateThreadCount s r).tools = s.tools ∧
    (updateThreadCount s r).max_tokens = s.max_tokens ∧
    (updateThreadCount s r).model = s.model := by
  cases h : r.usage <;> simp [updateThreadCount, h]

/-- Serializing a property list whose every value is a function drops every
property (`JSON.stringify` omits function-valued properties). -/
theorem stringifyProps_map_fn (l : List (String × Handler)) :
    stringifyProps (l.map fun kv => (kv.1, JsProp.fn)) = [] := by
  induction l with
  | nil => rfl
  | cons kv rest ih => simp [stringifyProps]

/-- Assigning an owned key leaves the set of owned keys unchanged. -/
theorem hasKey_setProp (props : List (String × JsProp)) (k : String) (v : JsVal)
    (hk : hasKey props k = true) (k₀ : String) :
    hasKey (setProp props k v) k₀ = hasKey props k₀ := by
  induction props with
  | nil => simp [hasKey] at hk
  | cons kv rest ih =>
      by_cases h : kv.1 = k
      · simp [setProp, hasKey, h]
      · have hk' : hasKey rest k = true := by
          simp only [hasKey, List.any_cons, Bool.or_eq_true, decide_eq_true_eq] at hk
          exact hk.resolve_left h
        simp only [setProp, if_neg h, hasKey, List.any_cons]
        have ih' := ih hk'
        simp only [hasKey] at ih'
        rw [ih']

/-!
## Fixtures: concrete states, payloads and responses used by the closed
theorems
-/

/-- A handler that returns its first positional argument. -/
def echoFirstArg : Handler := fun loc _unit => loc

/-- Parsed tool-call payload `{"location": "Boston", "unit": "celsius"}`. -/
def wBoston : JsVal :=
  JsVal.objOf [("location", JsVal.str "Boston"), ("unit", JsVal.str "celsius")]

/-- Parsed tool-call payload `{"location": "Paris", "unit": "celsius"}`. -/
def wParis : JsVal :=
  JsVal.objOf [("location", JsVal.str "Paris"), ("unit", JsVal.str "celsius")]

/-- A thread with one user message and a registered `get_weather` handler. -/
def weatherState : WrapperState :=
  { messages := [Msg.user "weather in Boston?"]
    toolFunctionmap := [("get_weather", echoFirstArg)] }

/-- The tool call `get_weather({"location": "Boston", "unit": "celsius"})`. -/
def callBoston : ToolCall := { id := "call_1", name := "get_weather", arguments := wBoston }

/-- A completion whose assistant message requests exactly `callBoston`. -/
def respOneCall : ChatCompletion :=
  { id := "cmpl-1"
    choices := [{ message := Msg.assistant "" (some [callBoston]) }]
    model := "gpt-3.5-turbo"
    usage := some { prompt_tokens := 7, completion_tokens := 5, total_tokens := 12 } }

/-- Batch of three tool calls: a known tool, then the unregistered
`wazzup`, then a known tool again. -/
def unknownMidBatch : List ToolCall :=
  [{ id := "call_A", name := "get_weather", arguments := wBoston },
   { id := "call_B", name := "wazzup", arguments := JsVal.objNil },
   { id := "call_C", name := "get_weather", arguments := wParis }]

/-- A completion whose assistant message requests `unknownMidBatch`. -/
def respUnknownMid : ChatCompletion :=
  { id := "cmpl-2"
    choices := [{ message := Msg.assistant "" (some unknownMidBatch) }]
    model := "gpt-3.5-turbo"
    usage := none }

/-!
## C1 — tool results and promise resolution
-/

/--
C1: the claim states that for a non-streaming run whose assistant message
carries tool calls, every tool-result message has been appended to the
transcript before the `runPrompt` promise resolves.  On the code this
fails: the tool loop lives in an `async` callback passed to
`choices.forEach`, whose promise `forEach` discards, and the appends sit
after an `await`; so at the moment `runPrompt` resolves the transcript
holds the assistant message but not one tool-result message — the result
of `callBoston` is appended only after resolution (second conjunct, the
drained state).  Concrete run: `weatherState` with response `respOneCall`.
-/
theorem c1_tool_result_appended_after_resolution :
    (runPromptModel weatherState respOneCall).resolveState.messages =
      [Msg.user "weather in Boston?",
       Msg.assistant "" (some [callBoston])] ∧
    (runPromptModel weatherState respOneCall).settledState.messages =
      [Msg.user "weather in Boston?",
       Msg.assistant "" (some [callBoston]),
       Msg.tool "call_1" "get_weather" (JsVal.str "Boston")] := by
  decide

/-!
## C2 — unknown tool in mid-batch
-/

/--
C2: the claim states that a tool call naming an unregistered tool makes the
`runPrompt` call fail with an unknown-tool error.  On the code the `throw
new Error("Function wazzup is not defined")` happens inside the discarded
`forEach` callback promise, so `runPrompt` resolves normally — the
response is recorded as `lastResponse` and the flag protocol proceeds
(first two conjuncts) while the error ends as an unhandled rejection
(third conjunct).  The remaining parts of the claim do hold on the code:
the earlier call's tool result stays in the transcript and neither the
offending call nor the one after it is invoked (last two conjuncts).
Concrete run: `weatherState` with response `respUnknownMid`
(calls `[get_weather, wazzup, get_weather]`).
-/
theorem c2_unknown_tool_error_is_swallowed :
    (runPromptModel weatherState respUnknownMid).resolveState.lastResponse =
      some respUnknownMid ∧
    (runPromptModel weatherState respUnknownMid).resolveState._needsToolRun = true ∧
    (runPromptModel weatherState respUnknownMid).unhandledRejection =
      some "Function wazzup is not defined" ∧
    (runPromptModel weatherState respUnknownMid).settledState.messages =
      weatherState.messages ++
        [Msg.assistant "" (some unknownMidBatch),
         Msg.tool "call_A" "get_weather" (JsVal.str "Boston")] ∧
    (runPromptModel weatherState respUnknownMid).invocations =
      [{ name := "get_weather", arg1 := JsVal.str "Boston", arg2 := JsVal.str "celsius" }] := by
  decide

/-!
## C4 — what the handler is invoked with
-/

/-- The payload `{"city": "Paris"}` of a tool whose schema declares `city`. -/
def cityParis : JsVal := JsVal.objOf [("city", JsVal.str "Paris")]

/-- The payload `{"city": "London"}`. -/
def cityLondon : JsVal := JsVal.objOf [("city", JsVal.str "London")]

/-- A thread with a registered `lookup_city` handler. -/
def cityState : WrapperState :=
  { toolFunctionmap := [("lookup_city", echoFirstArg)] }

/-- The tool call `lookup_city` with the given parsed payload. -/
def cityCall (payload : JsVal) : ToolCall :=
  { id := "call_4", name := "lookup_city", arguments := payload }

/-- A completion requesting `lookup_city` with the given parsed payload. -/
def cityResp (payload : JsVal) : ChatCompletion :=
  { id := "cmpl-4"
    choices := [{ message := Msg.assistant "" (some [cityCall payload]) }]
    model := "gpt-3.5-turbo"
    usage := none }

/--
C4: the claim states the handler receives the parsed argument payload for
arbitrary argument shapes.  On the code the handler is invoked as
`functionToCall(functionArgs.location, functionArgs.unit)` — only the
`location` and `unit` fields of the parsed payload.  For a payload shaped
`{"city": ...}` both are `undefined`, so the two distinct payloads
`{"city":"Paris"}` and `{"city":"London"}` produce the identical handler
invocation `lookup_city(undefined, undefined)`: the parsed payload does
not reach the handler.
-/
theorem c4_handler_does_not_receive_payload :
    (runPromptModel cityState (cityResp cityParis)).invocations =
      [{ name := "lookup_city", arg1 := JsVal.undefined, arg2 := JsVal.undefined }] ∧
    (runPromptModel cityState (cityResp cityParis)).invocations =
      (runPromptModel cityState (cityResp cityLondon)).invocations ∧
    cityParis ≠ cityLondon := by
  decide

/-!
## C3 — per-call overrides versus stored configuration
-/

/-- A state with stored temperature 1 (the class default). -/
def c3State : WrapperState := { temperature := 1 }

/-- A per-call override asking for temperature 0. -/
def c3Opts : ModelOptions := { temperature := some 0 }

/--
C3 counterexample: the claim states every field present in the per-call
overrides takes precedence over the stored configuration — in particular
temperature.  On the code the explicit `temperature: this.temperature` is
written after `...modelOptions` in the request literal, so the stored
value wins: with stored temperature 1 and an override of 0, the request
carries temperature 1, not 0.
-/
theorem c3_counterexample_override_ignored :
    c3Opts.temperature = some 0 ∧
    (runPromptRequest c3State c3Opts).temperature ≠ 0 ∧
    (runPromptRequest c3State c3Opts).temperature = 1 := by
  decide

/--
C3 amended: for the fields the call sites write explicitly after the
spread — temperature, response-format mode, tools, and (non-streaming
only) max tokens — the stored configuration value reaches the request
regardless of any override; override fields that are not in the explicit
list (`top_p`, `seed`; also `max_tokens` on the streaming call site, which
does not write it) do pass through to the request; and the stored
configuration fields are unchanged when the call completes.
-/
theorem c3_amended_request_precedence (s : WrapperState) (mo : ModelOptions)
    (resp : ChatCompletion) (frags : List String) (ending : StreamEnd) :
    (runPromptRequest s mo).temperature = s.temperature ∧
    (runPromptRequest s mo).response_format =
      (if s.json_mode then "json_object" else "text") ∧
    (runPromptRequest s mo).tools =
      (if s.tools.length > 0 then some s.tools else none) ∧
    (runPromptRequest s mo).max_tokens = s.max_tokens ∧
    (runPromptRequest s mo).stream = false ∧
    (runPromptRequest s mo).top_p = mo.top_p ∧
    (runPromptRequest s mo).seed = mo.seed ∧
    (runPromptStreamRequest s mo).temperature = s.temperature ∧
    (runPromptStreamRequest s mo).response_format =
      (if s.json_mode then "json_object" else "text") ∧
    (runPromptStreamRequest s mo).tools = none ∧
    (runPromptStreamRequest s mo).max_tokens = mo.max_tokens ∧
    (runPromptStreamRequest s mo).top_p = mo.top_p ∧
    (runPromptModel s resp).settledState.temperature = s.temperature ∧
    (runPromptModel s resp).settledState.json_mode = s.json_mode ∧
    (runPromptModel s resp).settledState.tools = s.tools ∧
    (runPromptModel s resp).settledState.max_tokens = s.max_tokens ∧
    (runPromptStreamModel s frags ending).finalState.temperature = s.temperature ∧
    (runPromptStreamModel s frags ending).finalState.json_mode = s.json_mode ∧
    (runPromptStreamModel s frags ending).finalState.tools = s.tools ∧
    (runPromptStreamModel s frags ending).finalState.max_tokens = s.max_tokens := by
  obtain ⟨h1, h2, h3, h4, -⟩ :=
    runPromptSyncChoices_config
      { s with _needsToolRun := false,
               receivedCompletions := s.receivedCompletions ++ [resp] } resp.choices
  obtain ⟨g1, g2, g3, g4, -⟩ :=
    updateThreadCount_config (runPromptSyncChoices
      { s with _needsToolRun := false,
               receivedCompletions := s.receivedCompletions ++ [resp] } resp.choices) resp
  refine ⟨rfl, rfl, rfl, rfl, rfl, rfl, rfl, rfl, rfl, rfl, rfl, rfl, ?_, ?_, ?_, ?_,
          ?_, ?_, ?_, ?_⟩
  · show (updateThreadCount _ _).temperature = s.temperature
    rw [g1, h1]
  · show (updateThreadCount _ _).json_mode = s.json_mode
    rw [g2, h2]
  · show (updateThreadCount _ _).tools = s.tools
    rw [g3, h3]
  · show (updateThreadCount _ _).max_tokens = s.max_tokens
    rw [g4, h4]
  · cases ending <;> rfl
  · cases ending <;> rfl
  · cases ending <;> rfl
  · cases ending <;> rfl

/-!
## C5 — clearing the stream handle on termination
-/

/-- A plain thread used for the streaming scenarios. -/
def streamState : WrapperState :=
  { messages := [Msg.user "hi"], hasSink := true }

/--
C5 counterexample: the claim states the stored cancellation handle is
cleared on every termination of `runPromptStream`, including an error
raised while iterating the fragment sequence.  On the code the `.then`
callback has no `try`/`finally`: an error thrown by the iteration rejects
the promise with the handle-clearing statement never executed, so the
handle is still present when the call rejects.
-/
theorem c5_counterexample_error_keeps_handle :
    (runPromptStreamModel streamState ["a"] (StreamEnd.errored 1)).rejected = true ∧
    (runPromptStreamModel streamState ["a"] (StreamEnd.errored 1)).finalState.streamAbortController
      = true := by
  decide

/--
C5 amended: the handle is cleared on natural completion and on external
abort, but when the fragment sequence raises an error the call rejects
with the handle still set.
-/
theorem c5_amended_handle_clearing (s : WrapperState) (frags : List String) (k : Nat) :
    (runPromptStreamModel s frags StreamEnd.natural).finalState.streamAbortController = false ∧
    (runPromptStreamModel s frags (StreamEnd.aborted k)).finalState.streamAbortController = false ∧
    (runPromptStreamModel s frags (StreamEnd.errored k)).finalState.streamAbortController = true ∧
    (runPromptStreamModel s frags (StreamEnd.errored k)).rejected = true := by
  exact ⟨rfl, rfl, rfl, rfl⟩

/-!
## C6 — abort leaves the transcript and LastResult untouched
-/

/--
C6: if `abortStream` is invoked while the stream is active, after `k`
delivered fragments for any `k`, then when `runPromptStream` returns the
transcript is exactly what it was before the call and `lastResponse` is
the `undefined` state.  This is what the code does: during iteration
nothing is appended, and the empty-handle check after the loop clears
`lastResponse` and returns before the assistant message is synthesized.
-/
theorem c6_abort_preserves_transcript (s : WrapperState) (frags : List String) (k : Nat) :
    (runPromptStreamModel s frags (StreamEnd.aborted k)).finalState.messages = s.messages ∧
    (runPromptStreamModel s frags (StreamEnd.aborted k)).finalState.lastResponse = none := by
  exact ⟨rfl, rfl⟩

/-!
## C7 — the end-of-stream sentinel
-/

/-- Is a sink call the `undefined` end-of-stream sentinel? -/
def SinkEvent.isDone : SinkEvent → Bool
  | .done => true
  | .delta _ => false

/-- Fragment deliveries never count as the sentinel. -/
theorem filter_done_map_delta (l : List String) :
    (l.map SinkEvent.delta).filter SinkEvent.isDone = [] := by
  induction l with
  | nil => rfl
  | cons a rest ih => simp [SinkEvent.isDone, ih]

/-- The sink calls of a naturally completing stream with a registered
sink: the reset call, the fragments in order, the sentinel. -/
theorem sinkTrace_natural (s : WrapperState) (frags : List String)
    (h : s.hasSink = true) :
    (runPromptStreamModel s frags StreamEnd.natural).sinkTrace =
      SinkEvent.delta "" :: (frags.map SinkEvent.delta ++ [SinkEvent.done]) := by
  simp [runPromptStreamModel, appendMessages, h]

/-- The sink calls of a stream aborted after `k` fragments with a
registered sink: the reset call and the delivered fragments, nothing
else. -/
theorem sinkTrace_aborted (s : WrapperState) (frags : List String) (k : Nat)
    (h : s.hasSink = true) :
    (runPromptStreamModel s frags (StreamEnd.aborted k)).sinkTrace =
      SinkEvent.delta "" :: (frags.take k).map SinkEvent.delta := by
  simp [runPromptStreamModel, h]

/--
C7 counterexample: the claim states a registered sink receives the
end-of-stream sentinel exactly once in both terminal outcomes, natural
completion and external abort.  On the code the abort path returns from
the `.then` callback before the `streamCallbackFn(undefined)` call, so on
abort the sink receives no sentinel at all: aborting after one fragment,
the complete sink trace is `["", "Hel"]` with no sentinel call.
-/
theorem c7_counterexample_abort_without_sentinel :
    streamState.hasSink = true ∧
    (runPromptStreamModel streamState ["Hel", "lo"] (StreamEnd.aborted 1)).sinkTrace =
      [SinkEvent.delta "", SinkEvent.delta "Hel"] ∧
    ((runPromptStreamModel streamState ["Hel", "lo"] (StreamEnd.aborted 1)).sinkTrace.filter
      SinkEvent.isDone).length = 0 := by
  decide

/--
C7 amended: with a registered sink, natural completion delivers the
sentinel exactly once, and external abort delivers it zero times.
-/
theorem c7_amended_sentinel_count (s : WrapperState) (frags : List String) (k : Nat)
    (h : s.hasSink = true) :
    ((runPromptStreamModel s frags StreamEnd.natural).sinkTrace.filter
      SinkEvent.isDone).length = 1 ∧
    ((runPromptStreamModel s frags (StreamEnd.aborted k)).sinkTrace.filter
      SinkEvent.isDone).length = 0 := by
  constructor
  · rw [sinkTrace_natural s frags h]
    simp [SinkEvent.isDone, List.filter_append, filter_done_map_delta]
  · rw [sinkTrace_aborted s frags k h]
    simp [SinkEvent.isDone, filter_done_map_delta]
    intro a ha
    rcases List.mem_map.mp (List.take_subset _ _ ha) with ⟨b, -, rfl⟩
    rfl

/-- Witness for `c7_amended_sentinel_count` at a concrete input. -/
theorem c7_amended_sentinel_count_witness :
    streamState.hasSink = true ∧
    (((runPromptStreamModel streamState ["Hel", "lo"] StreamEnd.natural).sinkTrace.filter
        SinkEvent.isDone).length = 1 ∧
      ((runPromptStreamModel streamState ["Hel", "lo"] (StreamEnd.aborted 1)).sinkTrace.filter
        SinkEvent.isDone).length = 0) :=
  ⟨by decide, c7_amended_sentinel_count streamState ["Hel", "lo"] 1 (by decide)⟩

/-!
## C8 — natural completion: sink trace and accumulated message
-/

/--
C8 counterexample: the claim states that for the fragment sequence
`["Hel", "lo", " world"]` the sink receives exactly those three fragments
followed by the sentinel.  On the code the `.then` callback first calls
the sink with `""` (the reset signal at line 338), so the sink receives
five calls: `""`, the three fragments, then the sentinel.
-/
theorem c8_counterexample_leading_reset_fragment :
    streamState.hasSink = true ∧
    (runPromptStreamModel streamState ["Hel", "lo", " world"] StreamEnd.natural).sinkTrace ≠
      [SinkEvent.delta "Hel", SinkEvent.delta "lo", SinkEvent.delta " world",
       SinkEvent.done] ∧
    (runPromptStreamModel streamState ["Hel", "lo", " world"] StreamEnd.natural).sinkTrace =
      [SinkEvent.delta "", SinkEvent.delta "Hel", SinkEvent.delta "lo",
       SinkEvent.delta " world", SinkEvent.done] := by
  decide

/--
C8 amended: with a registered sink, a naturally ending fragment sequence
makes the sink receive an initial empty-string reset call, then the
fragments in order, then the sentinel; the synthesized assistant message
whose content is the left-to-right concatenation of the fragments is
appended to the transcript and recorded (inside the synthesized
completion) as the last result.
-/
theorem c8_amended_stream_accumulation (s : WrapperState) (frags : List String)
    (h : s.hasSink = true) :
    (runPromptStreamModel s frags StreamEnd.natural).sinkTrace =
      SinkEvent.delta "" :: (frags.map SinkEvent.delta ++ [SinkEvent.done]) ∧
    (runPromptStreamModel s frags StreamEnd.natural).finalState.messages =
      s.messages ++ [Msg.assistant (String.join frags) none] ∧
    (runPromptStreamModel s frags StreamEnd.natural).finalState.lastResponse =
      some (synthStreamCompletion s.model (String.join frags)) := by
  exact ⟨sinkTrace_natural s frags h, rfl, rfl⟩

/-- Witness for `c8_amended_stream_accumulation` at the spec's example
fragment sequence. -/
theorem c8_amended_stream_accumulation_witness :
    streamState.hasSink = true ∧
    ((runPromptStreamModel streamState ["Hel", "lo", " world"] StreamEnd.natural).sinkTrace =
      SinkEvent.delta "" ::
        (["Hel", "lo", " world"].map SinkEvent.delta ++ [SinkEvent.done]) ∧
    (runPromptStreamModel streamState ["Hel", "lo", " world"] StreamEnd.natural).finalState.messages
      = streamState.messages ++ [Msg.assistant (String.join ["Hel", "lo", " world"]) none] ∧
    (runPromptStreamModel streamState ["Hel", "lo", " world"] StreamEnd.natural).finalState.lastResponse
      = some (synthStreamCompletion streamState.model (String.join ["Hel", "lo", " world"]))) :=
  ⟨by decide, c8_amended_stream_accumulation streamState ["Hel", "lo", " world"] (by decide)⟩

/-!
## C9 — snapshot / restore round trip
-/

/-- A thread with one transcript message, one registered handler and
non-zero usage counters. -/
def c9State : WrapperState :=
  { messages := [Msg.user "hi"]
    toolFunctionmap := [("get_weather", echoFirstArg)]
    threadCount :=
      { prompt_tokens := 10, completion_tokens := 5, total_tokens := 15, tool_calls := 1 } }

/--
C9 counterexample: the claim states a `toJSON` / `fromJSON` round trip
into a fresh instance reproduces the tool registry bindings, including the
name-to-handler map.  On the code `JSON.stringify` drops function-valued
properties, so the `toolFunctionmap` object — whose every value is a
function — serializes to `{}`: restoring a state with the binding
`get_weather` yields an instance whose `toolFunctionmap` is the empty
object, with even the binding's name gone (the restore itself reports
success).
-/
theorem c9_counterexample_handler_map_lost :
    c9State.toolFunctionmap.map Prod.fst = ["get_weather"] ∧
    (fromJSONModel (ownProps {} (JsProp.json JsVal.objNil))
        (toJSONModel c9State (JsProp.json JsVal.objNil))).2 = none ∧
    (fromJSONModel (ownProps {} (JsProp.json JsVal.objNil))
        (toJSONModel c9State (JsProp.json JsVal.objNil))).1.lookup "toolFunctionmap" =
      some (JsProp.json JsVal.objNil) := by
  decide

/-- The own-property names of the class, in declaration order. -/
def classKeys : List String :=
  ["openai", "model", "json_mode", "messages", "tools", "temperature", "timeout",
   "streamAbortController", "max_tokens", "threadCount", "receivedCompletions",
   "toolFunctionmap", "debug", "lastResponse", "_needsToolRun", "streamCallbackFn"]

/-- The property names of `ownProps` do not depend on the state. -/
theorem ownProps_keys (s : WrapperState) (img : JsProp) :
    (ownProps s img).map Prod.fst = classKeys := rfl

/-- `JSON.stringify` keeps a subsequence of the property names. -/
theorem keys_stringifyProps_sublist (l : List (String × JsProp)) :
    List.Sublist ((stringifyProps l).map Prod.fst) (l.map Prod.fst) := by
  induction l with
  | nil => simp [stringifyProps]
  | cons kv rest ih =>
      rcases kv with ⟨k0, v0⟩
      cases v0 with
      | json v =>
          simp only [stringifyProps, List.filterMap_cons, List.map_cons] at ih ⊢
          exact List.Sublist.cons₂ k0 ih
      | fn =>
          simp only [stringifyProps, List.filterMap_cons, List.map_cons] at ih ⊢
          exact List.Sublist.cons k0 ih
      | undefProp =>
          simp only [stringifyProps, List.filterMap_cons, List.map_cons] at ih ⊢
          exact List.Sublist.cons k0 ih

/-- `hasOwn` as membership among the property names. -/
theorem hasKey_eq_mem (props : List (String × JsProp)) (k : String) :
    hasKey props k = true ↔ k ∈ props.map Prod.fst := by
  simp only [hasKey, List.any_eq_true, decide_eq_true_eq, List.mem_map]

/-- Looking up the key just assigned finds the assigned value. -/
theorem lookup_setProp_same (props : List (String × JsProp)) (k : String) (v : JsVal) :
    (setProp props k v).lookup k = some (JsProp.json v) := by
  induction props with
  | nil => simp [setProp, List.lookup]
  | cons kv rest ih =>
      by_cases h : kv.1 = k
      · simp [setProp, h, List.lookup]
      · simp only [setProp, if_neg h]
        cases hbe : (k == kv.1) with
        | true => exact absurd (beq_iff_eq.mp hbe).symm h
        | false => simp [List.lookup, hbe, ih]

/-- Assigning one key leaves lookups of other keys unchanged. -/
theorem lookup_setProp_other (props : List (String × JsProp)) (k : String) (v : JsVal)
    (k' : String) (h : k' ≠ k) :
    (setProp props k v).lookup k' = props.lookup k' := by
  induction props with
  | nil =>
      have hb : (k' == k) = false := beq_eq_false_iff_ne.mpr h
      simp [setProp, List.lookup, hb]
  | cons kv rest ih =>
      by_cases hk : kv.1 = k
      · subst hk
        have hb : (k' == kv.1) = false := beq_eq_false_iff_ne.mpr h
        simp [setProp, List.lookup, hb]
      · simp only [setProp, if_neg hk]
        cases hbe : (k' == kv.1) <;> simp [List.lookup, hbe, ih]

/-- Assignments for other keys leave a key's lookup unchanged. -/
theorem lookup_applyAssignments_notmem (kvs : List (String × JsVal))
    (props : List (String × JsProp)) (k : String) (h : k ∉ kvs.map Prod.fst) :
    (applyAssignments props kvs).lookup k = props.lookup k := by
  induction kvs generalizing props with
  | nil => rfl
  | cons p rest ih =>
      obtain ⟨pk, pv⟩ := p
      simp only [List.map_cons, List.mem_cons, not_or] at h
      show (applyAssignments (setProp props pk pv) rest).lookup k = _
      rw [ih (setProp props pk pv) h.2, lookup_setProp_other props pk pv k h.1]

/-- With distinct keys, the lookup of a key after all assignments is the
value assigned for it. -/
theorem lookup_applyAssignments_mem (kvs : List (String × JsVal))
    (props : List (String × JsProp)) (k : String) (v : JsVal)
    (hnd : (kvs.map Prod.fst).Nodup) (hm : (k, v) ∈ kvs) :
    (applyAssignments props kvs).lookup k = some (JsProp.json v) := by
  induction kvs generalizing props with
  | nil => cases hm
  | cons p rest ih =>
      obtain ⟨pk, pv⟩ := p
      simp only [List.map_cons, List.nodup_cons] at hnd
      rcases List.mem_cons.mp hm with heq | hmem
      · injection heq with h1 h2
        subst h1
        subst h2
        show (applyAssignments (setProp props k v) rest).lookup k = _
        rw [lookup_applyAssignments_notmem rest _ k hnd.1]
        exact lookup_setProp_same props k v
      · show (applyAssignments (setProp props pk pv) rest).lookup k = _
        exact ih (setProp props pk pv) hnd.2 hmem

/-- When the instance owns every key of the parsed object, restore walks
all assignments and reports success. -/
theorem fromJSON_all_known (props : List (String × JsProp)) (kvs : List (String × JsVal))
    (h : ∀ p ∈ kvs, hasKey props p.1 = true) :
    fromJSONModel props kvs = (applyAssignments props kvs, none) := by
  induction kvs generalizing props with
  | nil => rfl
  | cons p rest ih =>
      obtain ⟨pk, pv⟩ := p
      have hp : hasKey props pk = true := h (pk, pv) (List.mem_cons_self _ _)
      simp only [fromJSONModel, hp, if_true]
      rw [ih (setProp props pk pv) fun q hq =>
            (hasKey_setProp props pk pv hp q.1).trans (h q (List.mem_cons_of_mem _ hq))]
      simp [applyAssignments]

/--
C9 amended: for every thread state, restoring its serialized form into a
fresh instance succeeds and reproduces the transcript, the tool
declarations and the usage counters — but the name-to-handler map is
restored as the empty object, because function values do not survive
`JSON.stringify`.  `img` and `img2` are the `openai` client objects of the
serialized and of the fresh instance, arbitrary external values.
-/
theorem c9_amended_roundtrip (s : WrapperState) (img img2 : JsVal) :
    (fromJSONModel (ownProps {} (JsProp.json img2))
        (toJSONModel s (JsProp.json img))).2 = none ∧
    (fromJSONModel (ownProps {} (JsProp.json img2))
        (toJSONModel s (JsProp.json img))).1.lookup "messages" =
      some (JsProp.json (JsVal.arrOf (s.messages.map encodeMsg))) ∧
    (fromJSONModel (ownProps {} (JsProp.json img2))
        (toJSONModel s (JsProp.json img))).1.lookup "tools" =
      some (JsProp.json (JsVal.arrOf (s.tools.map encodeChatTool))) ∧
    (fromJSONModel (ownProps {} (JsProp.json img2))
        (toJSONModel s (JsProp.json img))).1.lookup "threadCount" =
      some (JsProp.json (encodeCount s.threadCount)) ∧
    (fromJSONModel (ownProps {} (JsProp.json img2))
        (toJSONModel s (JsProp.json img))).1.lookup "toolFunctionmap" =
      some (JsProp.json JsVal.objNil) := by
  have hsub := (keys_stringifyProps_sublist (ownProps s (JsProp.json img))).subset
  have hknown : ∀ p ∈ toJSONModel s (JsProp.json img),
      hasKey (ownProps {} (JsProp.json img2)) p.1 = true := by
    intro p hp
    rw [hasKey_eq_mem, ownProps_keys]
    have hmem : p.1 ∈ (ownProps s (JsProp.json img)).map Prod.fst :=
      hsub (List.mem_map_of_mem Prod.fst hp)
    rwa [ownProps_keys] at hmem
  have hrun := fromJSON_all_known (ownProps {} (JsProp.json img2))
    (toJSONModel s (JsProp.json img)) hknown
  have hnd : ((toJSONModel s (JsProp.json img)).map Prod.fst).Nodup := by
    refine (keys_stringifyProps_sublist (ownProps s (JsProp.json img))).nodup ?_
    rw [ownProps_keys]
    decide
  refine ⟨?_, ?_, ?_, ?_, ?_⟩
  · rw [hrun]
  · rw [hrun]
    refine lookup_applyAssignments_mem _ _ _ _ hnd ?_
    refine List.mem_filterMap.mpr
      ⟨("messages", JsProp.json (JsVal.arrOf (s.messages.map encodeMsg))), ?_, rfl⟩
    simp [ownProps]
  · rw [hrun]
    refine lookup_applyAssignments_mem _ _ _ _ hnd ?_
    refine List.mem_filterMap.mpr
      ⟨("tools", JsProp.json (JsVal.arrOf (s.tools.map encodeChatTool))), ?_, rfl⟩
    simp [ownProps]
  · rw [hrun]
    refine lookup_applyAssignments_mem _ _ _ _ hnd ?_
    refine List.mem_filterMap.mpr
      ⟨("threadCount", JsProp.json (encodeCount s.threadCount)), ?_, rfl⟩
    simp [ownProps]
  · rw [hrun]
    refine lookup_applyAssignments_mem _ _ _ _ hnd ?_
    refine List.mem_filterMap.mpr ⟨("toolFunctionmap", JsProp.json JsVal.objNil), ?_, rfl⟩
    have hv : JsVal.objOf (stringifyProps
        (s.toolFunctionmap.map fun kv => (kv.1, JsProp.fn))) = JsVal.objNil := by
      rw [stringifyProps_map_fn]
      rfl
    simp [ownProps, hv]

/-!
## C10 — restore is not atomic on error
-/

/--
C10: `fromJSON` walks the parsed object's keys in order; if the keys are a
block `good` the instance owns followed by a key `k` it does not, the call
returns the failure result naming `k`, and every assignment for the keys
before `k` has already been applied — the pre-call state is not restored.
-/
theorem c10_first_unknown_key_keeps_prior_assignments
    (props : List (String × JsProp)) (good : List (String × JsVal))
    (k : String) (v : JsVal) (rest : List (String × JsVal))
    (h1 : ∀ p ∈ good, hasKey props p.1 = true) (h2 : hasKey props k = false) :
    fromJSONModel props (good ++ (k, v) :: rest) =
      (applyAssignments props good,
       some ("Property " ++ k ++ " is not defined in the class")) := by
  induction good generalizing props with
  | nil => simp [fromJSONModel, applyAssignments, h2]
  | cons g gs ih =>
      obtain ⟨gk, gv⟩ := g
      have hg : hasKey props gk = true := h1 (gk, gv) (List.mem_cons_self _ _)
      have h1' : ∀ p ∈ gs, hasKey (setProp props gk gv) p.1 = true := fun p hp =>
        (hasKey_setProp props gk gv hg p.1).trans (h1 p (List.mem_cons_of_mem _ hp))
      have h2' : hasKey (setProp props gk gv) k = false :=
        (hasKey_setProp props gk gv hg k).trans h2
      simp only [List.cons_append, fromJSONModel, hg, if_true, List.append_eq]
      rw [ih (setProp props gk gv) h1' h2']
      simp [applyAssignments]

/-- The fresh-instance property list used by the C10 witness. -/
def freshProps : List (String × JsProp) := ownProps {} (JsProp.json JsVal.objNil)

/-- Witness for `c10_first_unknown_key_keeps_prior_assignments`: restoring
`{"temperature": 2, "bogus": null, "debug": true}` onto a fresh instance
fails on `bogus` with `temperature` already assigned and `debug` never
processed. -/
theorem c10_first_unknown_key_witness :
    (∀ p ∈ [(("temperature" : String), JsVal.num 2)], hasKey freshProps p.1 = true) ∧
    hasKey freshProps "bogus" = false ∧
    fromJSONModel freshProps
        ([("temperature", JsVal.num 2)] ++ ("bogus", JsVal.null) :: [("debug", JsVal.bool true)]) =
      (applyAssignments freshProps [("temperature", JsVal.num 2)],
       some ("Property " ++ "bogus" ++ " is not defined in the class")) :=
  ⟨by decide, by decide,
   c10_first_unknown_key_keeps_prior_assignments freshProps
     [("temperature", JsVal.num 2)] "bogus" JsVal.null [("debug", JsVal.bool true)]
     (by decide) (by decide)⟩

end OpenAIWrapper
